import Mathlib

/-!
Shallow embedding of the service worker `sw.js` (Version 4.2, the primary
document of the repository; the same file also carries two older revisions,
v1 and v2, as related documents).  The worker manages one named cache
generation holding at most one entry, keyed by the status URL, and applies a
cache-first / network-fallback policy with a 15-minute TTL.

Modelling conventions:
* Machine effects that can fail (`caches.open`, `cache.match`, `fetch`,
  `cache.put`, `response.json()`) are driven by an explicit environment
  record saying which of them throws and what the network delivers.
* A web `Response` is modelled by the observables the code inspects: whether
  its type is `opaque` (field `isOpq`), its `ok` flag, what `.json()` yields
  on its body, and whether it carries a `Content-Type: application/json`
  header.
* A body is either JSON that parses (with the shape observables the code
  reads: presence of `status`/`message`/`lastUpdated`, the `status` value,
  and `new Date(lastUpdated).getTime()` — `none` standing for `NaN`),
  or text on which `.json()` throws, or an unreadable opaque body
  (on which `.json()` also throws).
* The cache is `Option WResponse`: the code only ever stores under the one
  key `STATUS_URL`, so the generation holds at most one entry.
* `FALLBACK_RESPONSE` captures `new Date()` once at script evaluation; the
  parameter `sev` (script-evaluation time, in ms) threads that moment.
-/

namespace Sw

/-- `CACHE_NAME` from sw.js line 4 (v4.2). -/
def CACHE_NAME : String := "app-status-cache-v4"

/-- `STATUS_URL` from sw.js line 5. -/
def STATUS_URL : String := "https://damazinecol.github.io/col/status.json"

/-- `CACHE_TTL = 15 * 60 * 1000` ms, sw.js line 6. -/
def CACHE_TTL : Int := 15 * 60 * 1000

/-- The JSON shape observables that the worker reads off a parsed body:
field presence for `status`, `message`, `lastUpdated`, the value of
`status`, and `new Date(lastUpdated).getTime()` in ms (`none` = `NaN`,
i.e. a missing or unparseable timestamp). -/
structure JsonShape where
  hasStatus : Bool
  hasMessage : Bool
  hasLastUpdated : Bool
  statusVal : String
  lastUpdatedMs : Option Int
deriving Repr, DecidableEq

/-- What `.json()` does on a response body. -/
inductive BodyContent where
  /-- `.json()` succeeds and yields a value with shape `j`. -/
  | jsonBody (j : JsonShape)
  /-- text that is not valid JSON: `.json()` throws. -/
  | rawBody (s : String)
  /-- an opaque (cross-origin, unreadable) body: `.json()` throws. -/
  | opqBody
deriving Repr, DecidableEq

/-- A web Response as observed by the worker.  `isOpq` models
`response.type === "opaque"`; `ctJson` models the presence of a
`Content-Type: application/json` header. -/
structure WResponse where
  isOpq : Bool
  ok : Bool
  body : BodyContent
  ctJson : Bool
deriving Repr, DecidableEq

/-- Shape of the module-level `FALLBACK_RESPONSE` JSON string (sw.js
lines 7–11): `status: "normal"`, a fixed message, and `lastUpdated`
set to `new Date().toISOString()` at script-evaluation time `sev`. -/
def fallbackShape (sev : Int) : JsonShape :=
  ⟨true, true, true, "normal", some sev⟩

/-- Body of the Fallback Record. -/
def fallbackBody (sev : Int) : BodyContent := .jsonBody (fallbackShape sev)

/-- `new Response(FALLBACK_RESPONSE, {headers: {"Content-Type":
"application/json"}})`: a basic, status-200 response carrying the
fallback JSON. -/
def fallbackResponse (sev : Int) : WResponse :=
  ⟨false, true, fallbackBody sev, true⟩

/-- Environment for one run of the fetch handler: which awaited cache
operations throw, the matched cache entry, the network outcome (`.error e`
models a rejected `fetch`), whether the awaited `cache.put` of a readable
ok response throws, whether the fire-and-forget `cache.put` in the opaque
branch fails, and the wall clock `Date.now()` in ms. -/
structure FetchEnv where
  openThrows : Bool
  matchThrows : Bool
  cached : Option WResponse
  net : Except String WResponse
  putThrows : Bool
  bgPutThrows : Bool
  now : Int
deriving Repr

/-- Which source-code branch produced the response (sw.js lines 35–107). -/
inductive Branch where
  /-- line 52: valid cached response served without touching the network. -/
  | freshCache
  /-- line 71: opaque network response returned as-is. -/
  | opqNet
  /-- line 78: readable ok network response returned after write-through. -/
  | okNet
  /-- line 87: final fallback to the previously matched cached response. -/
  | staleCache
  /-- line 91: hardcoded fallback when no cached response exists. -/
  | hardFallback
  /-- line 97: outer catch resolving to the hardcoded fallback. -/
  | catchFallback
deriving Repr, DecidableEq

/-- Outcome of the promise passed to `respondWith`: either it rejects
(the request fails with a network error) or it resolves to a response
produced by a particular branch. -/
inductive Outcome where
  | rejected
  | responded (r : WResponse) (tag : Branch)
deriving Repr, DecidableEq

/-- Result of one monitored-request interception: the outcome, the cache
entry for `STATUS_URL` afterwards, and whether `fetch` was attempted. -/
structure FetchResult where
  outcome : Outcome
  cacheAfter : Option WResponse
  netAttempted : Bool
deriving Repr, DecidableEq

/-- `Date.now() - cachedTime < CACHE_TTL` (sw.js line 50).  When
`lastUpdated` is missing or unparseable, `getTime()` is `NaN` and the
comparison is false. -/
def freshAt (now : Int) (j : JsonShape) : Bool :=
  match j.lastUpdatedMs with
  | some t => decide (now - t < CACHE_TTL)
  | none => false

/-- Steps 2–3 of the handler (sw.js lines 56–93), entered with the
previously matched `cachedResponse`: try the network; an opaque response
is returned as-is with a background cache write; a readable ok response
is written through and returned; a thrown fetch, a thrown awaited
`cache.put`, or a readable non-ok response all fall through to the final
fallback: the matched cached response if present, else the hardcoded
fallback. -/
def afterNet (sev : Int) (env : FetchEnv) (cachedResponse : Option WResponse) :
    FetchResult :=
  match env.net with
  | .error _ =>
      match cachedResponse with
      | some c => ⟨.responded c .staleCache, env.cached, true⟩
      | none => ⟨.responded (fallbackResponse sev) .hardFallback, env.cached, true⟩
  | .ok r =>
      if r.isOpq then
        ⟨.responded r .opqNet, if env.bgPutThrows then env.cached else some r, true⟩
      else if r.ok then
        if env.putThrows then
          match cachedResponse with
          | some c => ⟨.responded c .staleCache, env.cached, true⟩
          | none => ⟨.responded (fallbackResponse sev) .hardFallback, env.cached, true⟩
        else ⟨.responded r .okNet, some r, true⟩
      else
        match cachedResponse with
        | some c => ⟨.responded c .staleCache, env.cached, true⟩
        | none => ⟨.responded (fallbackResponse sev) .hardFallback, env.cached, true⟩

/-- The async function passed to `respondWith` for a monitored request
(sw.js lines 39–101).  `await caches.open(CACHE_NAME)` sits before the
try block, so its exception rejects the whole promise.  Inside the try:
a thrown `cache.match` or a body on which `.json()` throws (malformed
text, or an opaque stored entry) jumps to the outer catch, which resolves
to the hardcoded fallback; a parsed cached body younger than the TTL is
returned at once with no fetch; otherwise the network steps run. -/
def interceptStatus (sev : Int) (env : FetchEnv) : FetchResult :=
  if env.openThrows then ⟨.rejected, env.cached, false⟩
  else if env.matchThrows then
    ⟨.responded (fallbackResponse sev) .catchFallback, env.cached, false⟩
  else
    match env.cached with
    | some c =>
        match c.body with
        | .jsonBody j =>
            if freshAt env.now j then ⟨.responded c .freshCache, env.cached, false⟩
            else afterNet sev env (some c)
        | _ => ⟨.responded (fallbackResponse sev) .catchFallback, env.cached, false⟩
    | none => afterNet sev env none

/-- Whether the first list of characters is an initial segment of the
second. -/
def leadsWith : List Char → List Char → Bool
  | [], _ => true
  | _ :: _, [] => false
  | a :: as, b :: bs => a == b && leadsWith as bs

/-- Whether `pat` occurs as a contiguous substring. -/
def containsSub (pat : List Char) : List Char → Bool
  | [] => pat.isEmpty
  | b :: bs => leadsWith pat (b :: bs) || containsSub pat bs

/-- `event.request.url.includes("status.json")` (sw.js line 36). -/
def monitoredUrl (url : String) : Bool :=
  containsSub "status.json".data url.data

/-- What answers the request: the interception policy, or the pass-through
`fetch(event.request)` of the unmodified request (sw.js line 106). -/
inductive Answer where
  | intercepted (res : FetchResult)
  | passthrough (url : String)
deriving Repr

/-- Result of dispatching one fetch event: the answer taken by the first
`respondWith`, whether the handler itself threw, and the cache entry for
`STATUS_URL` afterwards. -/
structure DispatchResult where
  answer : Answer
  handlerThrew : Bool
  cacheAfter : Option WResponse
deriving Repr

/-- The whole fetch listener (sw.js lines 35–107).  For a monitored URL the
policy promise is passed to `respondWith`; the unconditional second
`respondWith(fetch(event.request))` at line 106 then throws an
`InvalidStateError` inside the handler (the already-accepted first answer
still stands).  For every other URL only line 106 runs: the request passes
through to `fetch` unmodified, nothing is cached, and the handler does not
throw. -/
def fetchDispatch (sev : Int) (url : String) (env : FetchEnv) : DispatchResult :=
  if monitoredUrl url then
    let res := interceptStatus sev env
    ⟨.intercepted res, true, res.cacheAfter⟩
  else
    ⟨.passthrough url, false, env.cached⟩

/-- Environment for the install listener: which awaited cache operations
throw. -/
structure InstallEnv where
  openThrows : Bool
  putThrows : Bool
deriving Repr, DecidableEq

/-- Result of the install listener: the cache entry for `STATUS_URL`
afterwards, whether any error reached a caller of the event, and whether a
network fetch was attempted. -/
structure InstallResult where
  cacheAfter : Option WResponse
  errorSurfaced : Bool
  fetchAttempted : Bool
deriving Repr, DecidableEq

/-- The v4.2 install listener (sw.js lines 14–32): open the cache and put
the Fallback Record (with `Content-Type: application/json` and an
`X-Cache-Status` header) under `STATUS_URL`; the trailing `.catch` logs
any failure, so no error surfaces.  It performs no network fetch. -/
def install_v42 (sev : Int) (env : InstallEnv) (cache0 : Option WResponse) :
    InstallResult :=
  if env.openThrows then ⟨cache0, false, false⟩
  else if env.putThrows then ⟨cache0, false, false⟩
  else ⟨some (fallbackResponse sev), false, false⟩

/-- A message posted to clients by the message listener (the same value is
posted to every client returned by `clients.matchAll()`). -/
structure PostedMsg where
  mtype : String
  success : Bool
  error : Option String
  timestamp : Option Int
deriving Repr, DecidableEq

/-- Environment for the message listener: whether `caches.open` throws (and
with what message), the network outcome, whether the awaited `cache.put`
throws (and with what message), and `Date.now()`. -/
structure MsgEnv where
  openThrows : Bool
  openErr : String
  net : Except String WResponse
  putThrows : Bool
  putErr : String
  now : Int
deriving Repr

/-- Result of the message listener: whether its promise rejected, the
message posted to the clients, and the cache entry afterwards. -/
structure MsgResult where
  threw : Bool
  posted : PostedMsg
  cacheAfter : Option WResponse
deriving Repr

/-- The v4.2 message listener for `{type: "UPDATE_STATUS"}` (sw.js lines
110–147): open the cache, fetch the status URL with a cache-busting query,
await `cache.put` even for an opaque response, then post
`{type: "STATUS_UPDATED", success: true, timestamp: Date.now()}` to all
clients; the catch posts `{type: "STATUS_UPDATED", success: false,
error: error.message}` instead, so the promise never rejects. -/
def message_v42 (env : MsgEnv) (cache0 : Option WResponse) : MsgResult :=
  if env.openThrows then
    ⟨false, ⟨"STATUS_UPDATED", false, some env.openErr, none⟩, cache0⟩
  else
    match env.net with
    | .error e => ⟨false, ⟨"STATUS_UPDATED", false, some e, none⟩, cache0⟩
    | .ok r =>
        if env.putThrows then
          ⟨false, ⟨"STATUS_UPDATED", false, some env.putErr, none⟩, cache0⟩
        else
          ⟨false, ⟨"STATUS_UPDATED", true, none, some env.now⟩, some r⟩

/-- Result of the activate listener: whether `clients.claim()` ran, the
cache generation names surviving afterwards, and whether the `waitUntil`
promise resolved cleanly. -/
structure ActResult where
  claimed : Bool
  finalKeys : List String
  resolvedClean : Bool
deriving Repr, DecidableEq

/-- The v4.2 activate listener (sw.js lines 150–169): first
`await self.clients.claim()`, then enumerate `caches.keys()` and delete,
in parallel under `Promise.all`, every generation whose name differs from
`CACHE_NAME`.  Every deletion is initiated during the synchronous `map`,
so one failed deletion (modelled by `delOk k = false`, the key surviving)
does not stop the others; `claimThrows` models a rejected
`clients.claim()`, which happens before any deletion. -/
def activate_v42 (claimThrows : Bool) (keys : List String)
    (delOk : String → Bool) : ActResult :=
  if claimThrows then ⟨false, keys, false⟩
  else
    ⟨true,
     keys.filter (fun k => decide (k = CACHE_NAME) || !delOk k),
     keys.all (fun k => decide (k = CACHE_NAME) || delOk k)⟩

/-- Whether an outcome is a resolved response (as opposed to a rejected
promise). -/
def isResponded : Outcome → Bool
  | .responded _ _ => true
  | .rejected => false

/-- Whether a body is JSON carrying all three fields `status`, `message`,
`lastUpdated`. -/
def bodyHasStatusFields : BodyContent → Bool
  | .jsonBody j => j.hasStatus && j.hasMessage && j.hasLastUpdated
  | _ => false

/-- The `status` value of a JSON body, when present. -/
def bodyStatusVal : BodyContent → Option String
  | .jsonBody j => if j.hasStatus then some j.statusVal else none
  | _ => none

/-- The parsed `lastUpdated` time of a JSON body, when present. -/
def bodyLastUpdated : BodyContent → Option Int
  | .jsonBody j => j.lastUpdatedMs
  | _ => none

/-- The network outcomes the spec counts as failures: a thrown `fetch`, or
a readable (non-opaque) response whose HTTP status is not in the success
range (`!response.ok`). -/
def netFails : Except String WResponse → Bool
  | .error _ => true
  | .ok r => !r.isOpq && !r.ok

/-- A cached body with malformed JSON (`.json()` throws: raw text or an
opaque stored entry) or with a missing/unparseable `lastUpdated`. -/
def malformedOrNoTimestamp : BodyContent → Bool
  | .jsonBody j => j.lastUpdatedMs == none
  | _ => true

/-! ### Helper lemmas -/

/-- The network steps always resolve to some response, and never through
the fresh-cache branch. -/
theorem afterNet_not_fresh (sev : Int) (env : FetchEnv) (co : Option WResponse) :
    ∃ r tag, (afterNet sev env co).outcome = Outcome.responded r tag
      ∧ tag ≠ Branch.freshCache := by
  unfold afterNet
  split
  · split <;> exact ⟨_, _, rfl, by decide⟩
  · split
    · exact ⟨_, _, rfl, by decide⟩
    · split
      · split
        · split <;> exact ⟨_, _, rfl, by decide⟩
        · exact ⟨_, _, rfl, by decide⟩
      · split <;> exact ⟨_, _, rfl, by decide⟩

/-- Once `caches.open` succeeds, the interception promise resolves. -/
theorem interceptStatus_total (sev : Int) (env : FetchEnv)
    (h : env.openThrows = false) :
    isResponded (interceptStatus sev env).outcome = true := by
  unfold interceptStatus
  rw [h]
  simp only [Bool.false_eq_true, if_false]
  split
  · rfl
  · split
    · split
      · split
        · rfl
        · obtain ⟨r, tag, hrt, _⟩ := afterNet_not_fresh sev env _
          rw [hrt]; rfl
      · rfl
    · obtain ⟨r, tag, hrt, _⟩ := afterNet_not_fresh sev env none
      rw [hrt]; rfl

/-- Any response produced through the hardcoded-fallback or outer-catch
branch is exactly the Fallback Record. -/
theorem interceptStatus_fallback_shape (sev : Int) (env : FetchEnv)
    (r : WResponse) (tag : Branch)
    (h : (interceptStatus sev env).outcome = Outcome.responded r tag)
    (ht : tag = Branch.hardFallback ∨ tag = Branch.catchFallback) :
    r = fallbackResponse sev := by
  rcases ht with rfl | rfl <;>
  · unfold interceptStatus afterNet at h
    repeat' split at h
    all_goals simp_all

/-! ### Claim C1 -/

/-- An opaque network response: unreadable body, `ok = false`, no headers
visible. -/
def opqResp : WResponse := ⟨true, false, .opqBody, false⟩

/-- Run in which `caches.open` throws, before the try block. -/
def envOpenFails : FetchEnv := ⟨true, false, none, .error "down", false, false, 0⟩

/-- Run with an empty cache and an opaque network response. -/
def envOpqNet : FetchEnv := ⟨false, false, none, .ok opqResp, false, false, 0⟩

/-- Claim C1, as stated, is false on two counts: (i) `await
caches.open(CACHE_NAME)` (sw.js line 40) sits before the try block, so
when it throws, the interception promise rejects instead of resolving to
the Fallback Record; (ii) an opaque network response is returned as-is
(sw.js line 71), and its body carries none of the JSON fields `status`,
`message`, `lastUpdated`. -/
theorem claim1_counterexample :
    (interceptStatus 0 envOpenFails).outcome = Outcome.rejected
    ∧ (interceptStatus 0 envOpqNet).outcome
        = Outcome.responded opqResp Branch.opqNet
    ∧ bodyHasStatusFields opqResp.body = false := by decide

/-- Claim C1 (amended): provided the initial `caches.open` succeeds, the
interception promise always resolves, whatever exceptions later await
points raise; whenever the response comes from the hardcoded-fallback or
outer-catch branch it is the Fallback Record, whose JSON body does contain
`status`, `message` and `lastUpdated`.  (An exception in the initial
`caches.open` rejects the promise, and a returned opaque network response
carries no readable JSON fields.) -/
theorem claim1_resolves (sev : Int) (env : FetchEnv)
    (h : env.openThrows = false) :
    isResponded (interceptStatus sev env).outcome = true
    ∧ bodyHasStatusFields (fallbackBody sev) = true
    ∧ (∀ r tag, (interceptStatus sev env).outcome = Outcome.responded r tag →
        tag = Branch.hardFallback ∨ tag = Branch.catchFallback →
        bodyHasStatusFields r.body = true) := by
  refine ⟨interceptStatus_total sev env h, rfl, ?_⟩
  intro r tag hr htag
  rw [interceptStatus_fallback_shape sev env r tag hr htag]
  rfl

/-- Run with an empty cache and a failing network, used to instantiate
`claim1_resolves`. -/
def envC1w : FetchEnv := ⟨false, false, none, .error "down", false, false, 0⟩

/-- Witness for `claim1_resolves` at a concrete run. -/
theorem claim1_witness :
    isResponded (interceptStatus 0 envC1w).outcome = true
    ∧ bodyHasStatusFields (fallbackBody 0) = true
    ∧ (∀ r tag, (interceptStatus 0 envC1w).outcome = Outcome.responded r tag →
        tag = Branch.hardFallback ∨ tag = Branch.catchFallback →
        bodyHasStatusFields r.body = true) :=
  claim1_resolves 0 envC1w rfl

/-! ### Claim C2 -/

/-- Cached entry whose stored body is text on which `.json()` throws. -/
def cachedRawEntry : WResponse := ⟨false, true, .rawBody "garbage", true⟩

/-- Run with that malformed cached entry and a failing network. -/
def envMalformedCache : FetchEnv :=
  ⟨false, false, some cachedRawEntry, .error "down", false, false, 0⟩

/-- Claim C2, as stated, is false: with a cached entry present whose body
is not valid JSON, `cachedResponse.clone().json()` (sw.js line 47) throws,
control jumps to the outer catch, and the hardcoded Fallback Record is
returned — without even attempting the network — even though a cached
entry exists. -/
theorem claim2_counterexample :
    envMalformedCache.cached = some cachedRawEntry
    ∧ (interceptStatus 0 envMalformedCache).outcome
        = Outcome.responded (fallbackResponse 0) Branch.catchFallback
    ∧ fallbackResponse 0 ≠ cachedRawEntry
    ∧ (interceptStatus 0 envMalformedCache).netAttempted = false := by decide

/-- Claim C2 (amended): when the network fails (thrown fetch or readable
non-ok response) and a cached entry exists *whose body parses as JSON*,
the cached entry is returned whatever its age; the hardcoded Fallback
Record is returned only when no cached entry exists or the cached body
fails to parse as JSON (the parse exception reaches the outer catch, which
answers with the Fallback Record even though an entry exists). -/
theorem claim2_cache_over_fallback (sev : Int) (env : FetchEnv)
    (c : WResponse) (j : JsonShape)
    (h1 : env.openThrows = false) (h2 : env.matchThrows = false)
    (h3 : env.cached = some c) (h4 : c.body = BodyContent.jsonBody j)
    (h5 : netFails env.net = true) :
    ∃ tag, (interceptStatus sev env).outcome = Outcome.responded c tag
      ∧ tag ≠ Branch.hardFallback ∧ tag ≠ Branch.catchFallback := by
  unfold interceptStatus afterNet
  repeat' split
  all_goals simp_all [netFails]

/-- A stale but well-formed cached entry (15 minutes is 900000 ms; here the
entry is far older than that at decision time). -/
def staleEntryW : WResponse :=
  ⟨false, true, .jsonBody ⟨true, true, true, "normal", some 0⟩, true⟩

/-- Run with the stale entry and a failing network. -/
def envC2w : FetchEnv :=
  ⟨false, false, some staleEntryW, .error "down", false, false, 10000000⟩

/-- Witness for `claim2_cache_over_fallback` at a concrete run: the cached
entry is ten million ms old, far beyond the TTL, yet it is what the failing
network falls back to. -/
theorem claim2_witness :
    ∃ tag, (interceptStatus 0 envC2w).outcome = Outcome.responded staleEntryW tag
      ∧ tag ≠ Branch.hardFallback ∧ tag ≠ Branch.catchFallback :=
  claim2_cache_over_fallback 0 envC2w staleEntryW
    ⟨true, true, true, "normal", some 0⟩ rfl rfl rfl rfl rfl

/-! ### Claim C3 -/

/-- Claim C3, as stated, is false: the v4.2 install listener (sw.js lines
14–32) performs no network fetch at all — even in a run where every cache
operation succeeds it stores the hardcoded Fallback Record, never a
network response.  (The fetch-then-store-verbatim behaviour the claim
describes belongs to the older v2 revision's install listener, sw.js
lines 303–335; the v1 revision's `cache.add`, sw.js line 225, can in turn
leave the cache empty on failure.) -/
theorem claim3_counterexample :
    (install_v42 0 ⟨false, false⟩ none).fetchAttempted = false
    ∧ (install_v42 0 ⟨false, false⟩ none).cacheAfter
        = some (fallbackResponse 0) := by decide

/-- Claim C3 (amended): the v4.2 install listener attempts no network
fetch; it unconditionally stores the Fallback Record, so that when the
cache operations succeed the cache afterwards holds exactly that one
entry for the monitored URL; and in every outcome — cache open or put
failing included — no error is surfaced to any caller. -/
theorem claim3_install (sev : Int) (env : InstallEnv)
    (cache0 : Option WResponse) :
    (install_v42 sev env cache0).errorSurfaced = false
    ∧ (install_v42 sev env cache0).fetchAttempted = false
    ∧ (env.openThrows = false → env.putThrows = false →
        (install_v42 sev env cache0).cacheAfter
          = some (fallbackResponse sev)) := by
  obtain ⟨o, p⟩ := env
  cases o <;> cases p <;> simp [install_v42]

/-- Witness for `claim3_install` at a concrete run. -/
theorem claim3_witness :
    (install_v42 0 ⟨false, false⟩ none).errorSurfaced = false
    ∧ (install_v42 0 ⟨false, false⟩ none).fetchAttempted = false
    ∧ ((InstallEnv.mk false false).openThrows = false →
        (InstallEnv.mk false false).putThrows = false →
        (install_v42 0 ⟨false, false⟩ none).cacheAfter
          = some (fallbackResponse 0)) :=
  claim3_install 0 ⟨false, false⟩ none

/-! ### Claim C4 -/

/-- Claim C4: for a URL not containing "status.json" the interception
policy is never applied: the event is answered by `fetch(event.request)`
on the unmodified request (sw.js line 106), the cache entry is untouched,
and the handler raises no error (only one `respondWith` runs for such a
request). -/
theorem claim4_passthrough (sev : Int) (url : String) (env : FetchEnv)
    (h : monitoredUrl url = false) :
    (fetchDispatch sev url env).answer = Answer.passthrough url
    ∧ (fetchDispatch sev url env).handlerThrew = false
    ∧ (fetchDispatch sev url env).cacheAfter = env.cached := by
  simp [fetchDispatch, h]

/-- A run environment for the pass-through witness. -/
def plainEnv : FetchEnv := ⟨false, false, none, .error "down", false, false, 0⟩

/-- Witness for `claim4_passthrough` at a concrete non-monitored URL. -/
theorem claim4_witness :
    (fetchDispatch 0 "https://damazinecol.github.io/col/index.html"
        plainEnv).answer
      = Answer.passthrough "https://damazinecol.github.io/col/index.html"
    ∧ (fetchDispatch 0 "https://damazinecol.github.io/col/index.html"
        plainEnv).handlerThrew = false
    ∧ (fetchDispatch 0 "https://damazinecol.github.io/col/index.html"
        plainEnv).cacheAfter = plainEnv.cached :=
  claim4_passthrough 0 "https://damazinecol.github.io/col/index.html"
    plainEnv (by decide)

/-! ### Claim C5 -/

/-- Claim C5: a cached entry whose parsed `lastUpdated` is strictly
younger than the 15-minute TTL at decision time is returned at once
through the fresh-cache branch, and no network fetch is attempted. -/
theorem claim5_cache_first (sev : Int) (env : FetchEnv)
    (c : WResponse) (j : JsonShape) (t : Int)
    (h1 : env.openThrows = false) (h2 : env.matchThrows = false)
    (h3 : env.cached = some c) (h4 : c.body = BodyContent.jsonBody j)
    (h5 : j.lastUpdatedMs = some t) (h6 : env.now - t < CACHE_TTL) :
    (interceptStatus sev env).outcome = Outcome.responded c Branch.freshCache
    ∧ (interceptStatus sev env).netAttempted = false := by
  unfold interceptStatus
  repeat' split
  all_goals simp_all [freshAt]

/-- A cached entry 100 ms old at decision time 200 ms. -/
def freshEntryW : WResponse :=
  ⟨false, true, .jsonBody ⟨true, true, true, "normal", some 100⟩, true⟩

/-- Run with the fresh entry; the network would fail, but is never
consulted. -/
def envC5w : FetchEnv :=
  ⟨false, false, some freshEntryW, .error "down", false, false, 200⟩

/-- Witness for `claim5_cache_first` at a concrete run. -/
theorem claim5_witness :
    (interceptStatus 0 envC5w).outcome
        = Outcome.responded freshEntryW Branch.freshCache
    ∧ (interceptStatus 0 envC5w).netAttempted = false :=
  claim5_cache_first 0 envC5w freshEntryW
    ⟨true, true, true, "normal", some 100⟩ 100 rfl rfl rfl rfl rfl (by decide)

/-! ### Claim C6 -/

/-- Run of the message listener in which the fetch throws
"NetworkError". -/
def envMsgNetFail : MsgEnv :=
  ⟨false, "openErr", .error "NetworkError", false, "putErr", 1000⟩

/-- Claim C6, as stated, is false: on a thrown fetch the v4.2 message
listener posts `{type: "STATUS_UPDATED", success: false, error: ...}`
(sw.js lines 137–141), not a message of type "UPDATE_COMPLETE".  (The
"UPDATE_COMPLETE" message belongs to the older v2 revision's listener,
which updates the worker registration instead of fetching the status
URL.) -/
theorem claim6_counterexample :
    (message_v42 envMsgNetFail none).posted.mtype = "STATUS_UPDATED"
    ∧ (message_v42 envMsgNetFail none).posted.mtype ≠ "UPDATE_COMPLETE"
    ∧ (message_v42 envMsgNetFail none).posted.success = false
    ∧ (message_v42 envMsgNetFail none).posted.error = some "NetworkError"
    ∧ (message_v42 envMsgNetFail none).threw = false := by decide

/-- Claim C6 (amended): when the explicit-refresh fetch throws, the
handler resolves without throwing and posts `{type: "STATUS_UPDATED",
success: false, error: <the error message>}` to the clients, leaving the
cache untouched. -/
theorem claim6_failure_message (env : MsgEnv) (cache0 : Option WResponse)
    (e : String)
    (h1 : env.openThrows = false) (h2 : env.net = Except.error e) :
    (message_v42 env cache0).threw = false
    ∧ (message_v42 env cache0).posted
        = ⟨"STATUS_UPDATED", false, some e, none⟩
    ∧ (message_v42 env cache0).cacheAfter = cache0 := by
  simp [message_v42, h1, h2]

/-- Witness for `claim6_failure_message` at a concrete run. -/
theorem claim6_witness :
    (message_v42 envMsgNetFail none).threw = false
    ∧ (message_v42 envMsgNetFail none).posted
        = ⟨"STATUS_UPDATED", false, some "NetworkError", none⟩
    ∧ (message_v42 envMsgNetFail none).cacheAfter = none :=
  claim6_failure_message envMsgNetFail none "NetworkError" rfl rfl

/-! ### Claim C7 -/

/-- In a duplicate-free list, filtering for equality with one known member
yields exactly that member. -/
theorem filter_eq_singleton (l : List String) (a : String)
    (hnd : l.Nodup) (hm : a ∈ l) :
    l.filter (fun k => decide (k = a)) = [a] := by
  induction l with
  | nil => cases hm
  | cons b t ih =>
      rw [List.nodup_cons] at hnd
      rcases List.mem_cons.mp hm with rfl | hmt
      · rw [List.filter_cons_of_pos (by simp)]
        have ht : t.filter (fun k => decide (k = a)) = [] := by
          rw [List.filter_eq_nil_iff]
          intro x hx
          simp only [decide_eq_true_eq]
          exact fun hxa => hnd.1 (hxa ▸ hx)
        rw [ht]
      · have hne : ¬(b = a) := fun hba => hnd.1 (hba ▸ hmt)
        rw [List.filter_cons_of_neg (by simpa using hne)]
        exact ih hnd.2 hmt

/-- Claim C7: the v4.2 activate listener claims the open pages before any
deletion, so a failed deletion cannot block it; every `caches.delete` is
initiated during the synchronous `map` under `Promise.all`, so a stale
generation whose deletion succeeds disappears even when another deletion
fails; and when every deletion succeeds, the surviving generation names
are exactly the current one, however many stale generations existed. -/
theorem claim7_activate (keys : List String) (delOk : String → Bool)
    (hnd : keys.Nodup) (hmem : CACHE_NAME ∈ keys) :
    (activate_v42 false keys delOk).claimed = true
    ∧ ((∀ k ∈ keys, delOk k = true) →
        (activate_v42 false keys delOk).finalKeys = [CACHE_NAME])
    ∧ (∀ k ∈ keys, k ≠ CACHE_NAME → delOk k = true →
        k ∉ (activate_v42 false keys delOk).finalKeys) := by
  refine ⟨rfl, ?_, ?_⟩
  · intro hall
    show keys.filter _ = [CACHE_NAME]
    have hcg : keys.filter (fun k => decide (k = CACHE_NAME) || !delOk k)
        = keys.filter (fun k => decide (k = CACHE_NAME)) := by
      apply List.filter_congr
      intro x hx
      rw [hall x hx]
      simp
    rw [hcg]
    exact filter_eq_singleton keys CACHE_NAME hnd hmem
  · intro k hk hne hdel hfin
    have hp := List.of_mem_filter (p := fun k => decide (k = CACHE_NAME) || !delOk k) hfin
    simp only [Bool.or_eq_true, decide_eq_true_eq, Bool.not_eq_true'] at hp
    rcases hp with hp | hp
    · exact hne hp
    · rw [hdel] at hp
      cases hp

/-- Witness for `claim7_activate`: two stale generations and the current
one; all deletions succeed, and only the current generation survives. -/
theorem claim7_witness :
    (activate_v42 false ["app-status-cache-v1", "app-status-cache-v2",
        CACHE_NAME] (fun _ => true)).claimed = true
    ∧ (activate_v42 false ["app-status-cache-v1", "app-status-cache-v2",
        CACHE_NAME] (fun _ => true)).finalKeys = [CACHE_NAME]
    ∧ "app-status-cache-v1" ∉ (activate_v42 false ["app-status-cache-v1",
        "app-status-cache-v2", CACHE_NAME] (fun _ => true)).finalKeys := by
  obtain ⟨h1, h2, h3⟩ := claim7_activate
    ["app-status-cache-v1", "app-status-cache-v2", CACHE_NAME]
    (fun _ => true) (by decide) (by decide)
  exact ⟨h1, h2 (fun k _ => rfl),
    h3 "app-status-cache-v1" (by decide) (by decide) rfl⟩

/-! ### Claim C8 -/

/-- Claim C8: a cached entry whose body fails to parse as JSON (the
`.json()` call throws), or whose `lastUpdated` is missing or unparseable
(`getTime()` yields `NaN`), never makes the handler throw uncaught: once
`caches.open` and `cache.match` have succeeded, the promise resolves, and
the entry is never served through the valid-fresh-cache branch — the run
proceeds into the network/fallback chain (a parse failure resolving
directly to the Fallback Record via the outer catch). -/
theorem claim8_malformed_cache (sev : Int) (env : FetchEnv) (c : WResponse)
    (h1 : env.openThrows = false) (h2 : env.matchThrows = false)
    (h3 : env.cached = some c)
    (h4 : malformedOrNoTimestamp c.body = true) :
    isResponded (interceptStatus sev env).outcome = true
    ∧ ∀ r, (interceptStatus sev env).outcome
        ≠ Outcome.responded r Branch.freshCache := by
  refine ⟨interceptStatus_total sev env h1, ?_⟩
  intro r hr
  unfold interceptStatus afterNet at hr
  repeat' split at hr
  all_goals simp_all [malformedOrNoTimestamp, freshAt]

/-- Cached entry whose body is not valid JSON, for the C8 witness. -/
def badEntryC8 : WResponse := ⟨false, true, .rawBody "<html>", true⟩

/-- Run with the malformed entry; the network would succeed, but the parse
exception reaches the outer catch first. -/
def envC8w : FetchEnv :=
  ⟨false, false, some badEntryC8, .error "down", false, false, 0⟩

/-- Witness for `claim8_malformed_cache` at a concrete run. -/
theorem claim8_witness :
    isResponded (interceptStatus 0 envC8w).outcome = true
    ∧ ∀ r, (interceptStatus 0 envC8w).outcome
        ≠ Outcome.responded r Branch.freshCache :=
  claim8_malformed_cache 0 envC8w badEntryC8 rfl rfl rfl rfl

/-! ### Claim C9 -/

/-- Claim C9: when the network fails (thrown fetch or readable non-ok
response) and no cached entry exists, the handler answers with the
hardcoded Fallback Record: a locally synthesized response carrying a
`Content-Type: application/json` header whose JSON body has
`status: "normal"`. -/
theorem claim9_hard_fallback (sev : Int) (env : FetchEnv)
    (h1 : env.openThrows = false) (h2 : env.matchThrows = false)
    (h3 : env.cached = none) (h4 : netFails env.net = true) :
    (interceptStatus sev env).outcome
        = Outcome.responded (fallbackResponse sev) Branch.hardFallback
    ∧ (fallbackResponse sev).ctJson = true
    ∧ bodyStatusVal (fallbackResponse sev).body = some "normal" := by
  refine ⟨?_, rfl, rfl⟩
  unfold interceptStatus afterNet
  repeat' split
  all_goals simp_all [netFails]

/-- Run with an empty cache and a thrown fetch, for the C9 witness. -/
def envC9w : FetchEnv := ⟨false, false, none, .error "offline", false, false, 500⟩

/-- Witness for `claim9_hard_fallback` at a concrete run. -/
theorem claim9_witness :
    (interceptStatus 0 envC9w).outcome
        = Outcome.responded (fallbackResponse 0) Branch.hardFallback
    ∧ (fallbackResponse 0).ctJson = true
    ∧ bodyStatusVal (fallbackResponse 0).body = some "normal" :=
  claim9_hard_fallback 0 envC9w rfl rfl rfl rfl

/-! ### Claim C10 -/

/-- Claim C10: `FALLBACK_RESPONSE` captures `new Date()` once, when the
worker script is evaluated (time `sev`); every fallback response the fetch
handler produces carries exactly `some sev` as its parsed `lastUpdated`,
whatever `Date.now()` is during the request, and the entry the install
listener writes carries the same value. -/
theorem claim10_fixed_timestamp (sev : Int) (env : FetchEnv)
    (ienv : InstallEnv) (cache0 : Option WResponse) (r : WResponse)
    (tag : Branch)
    (h1 : (interceptStatus sev env).outcome = Outcome.responded r tag)
    (h2 : tag = Branch.hardFallback ∨ tag = Branch.catchFallback) :
    bodyLastUpdated r.body = some sev
    ∧ (ienv.openThrows = false → ienv.putThrows = false →
        ∀ w, (install_v42 sev ienv cache0).cacheAfter = some w →
          bodyLastUpdated w.body = some sev) := by
  obtain ⟨o, p⟩ := ienv
  constructor
  · rw [interceptStatus_fallback_shape sev env r tag h1 h2]
    rfl
  · intro ho hp w hw
    simp only [InstallEnv.openThrows] at ho
    simp only [InstallEnv.putThrows] at hp
    subst ho
    subst hp
    simp only [install_v42, Bool.false_eq_true, if_false,
      Option.some.injEq] at hw
    rw [← hw]
    rfl

/-- Run at wall-clock time 999999 ms, far from the script-evaluation
time 0 of the Fallback Record it receives. -/
def envC10w : FetchEnv := ⟨false, false, none, .error "down", false, false, 999999⟩

/-- Witness for `claim10_fixed_timestamp`: the worker evaluated at time 0;
a request answered at time 999999 still gets `lastUpdated = 0`, and the
install-time entry carries the same value. -/
theorem claim10_witness :
    bodyLastUpdated (fallbackResponse 0).body = some 0
    ∧ ((InstallEnv.mk false false).openThrows = false →
        (InstallEnv.mk false false).putThrows = false →
        ∀ w, (install_v42 0 ⟨false, false⟩ none).cacheAfter = some w →
          bodyLastUpdated w.body = some 0) :=
  claim10_fixed_timestamp 0 envC10w ⟨false, false⟩ none (fallbackResponse 0)
    Branch.hardFallback (by decide) (Or.inl rfl)

end Sw
